import Mathlib

/-!
Shallow embedding of the section-table decoding engine of `xmas-elf`
(`src/sections.rs`), together with proofs about its behaviour.

Machine integers are modelled as `Nat`; a file buffer is a `List Nat` whose
elements are byte values.  Rust operations that abort the process (failed
`assert!`, `panic!`-style macros, out-of-bounds slicing, and the length
assertions of the external `zero` overlay reader) are modelled as
`Except.error` with a `Panic` value describing the abort site; Rust functions
that return a recoverable `Result` keep that `Result` in their `ok` channel.
-/

deriving instance DecidableEq for Except

namespace XmasElf

/-- Little-endian value of a byte list. -/
def readLE (bs : List Nat) : Nat :=
  bs.foldr (fun b acc => b + 256 * acc) 0

/-- Little-endian encoding of `n` on `k` bytes. -/
def encodeLE : Nat → Nat → List Nat
  | 0, _ => []
  | k + 1, n => n % 256 :: encodeLE k (n / 256)

/-- The `len` bytes of `bs` starting at offset `off`. -/
def bytesAt (bs : List Nat) (off len : Nat) : List Nat :=
  (bs.drop off).take len

/-- Aborting execution points of the Rust code (process aborts, not
recoverable errors): each constructor names one abort site. -/
inductive Panic where
  /-- Models `assert!(index < SHN_LORESERVE)` in `parse_section_header` (sections.rs:16). -/
  | indexOutOfRange
  /-- Out-of-bounds slice indexing `&buf[a..b]`. -/
  | sliceOutOfBounds
  /-- The overlay reader's single-record length assertion. -/
  | overlayTooShort
  /-- The overlay reader's array length assertion (slice length not an exact
  multiple of the record size). -/
  | arrayLenMismatch
  /-- The catch-all arm of `ShType_::as_sh_type` (sections.rs:269). -/
  | invalidTypeCode
  /-- The `Class::None` arms (sections.rs:30,104,154). -/
  | unreachableClassNone
  /-- Models `assert!(self.get_type() != ShType::Null)` in `raw_data` (sections.rs:165). -/
  | nullSectionRawData
  /-- The 32-bit arm of the `Note` branch of `get_data` (sections.rs:148). -/
  | unimplemented
  deriving DecidableEq, Repr

/-- ELF file class (`header::Class`). -/
inductive Class where
  | None
  | ThirtyTwo
  | SixtyFour
  deriving DecidableEq, Repr

-- Distinguished section indices (sections.rs:55-64).
def SHN_UNDEF : Nat := 0
def SHN_LORESERVE : Nat := 0xff00
def SHN_LOPROC : Nat := 0xff00
def SHN_HIPROC : Nat := 0xff1f
def SHN_LOOS : Nat := 0xff20
def SHN_HIOS : Nat := 0xff3f
def SHN_ABS : Nat := 0xfff1
def SHN_COMMON : Nat := 0xfff2
def SHN_XINDEX : Nat := 0xffff
def SHN_HIRESERVE : Nat := 0xffff

-- Distinguished ShType values (sections.rs:328-333).
def SHT_LOOS : Nat := 0x60000000
def SHT_HIOS : Nat := 0x6fffffff
def SHT_LOPROC : Nat := 0x70000000
def SHT_HIPROC : Nat := 0x7fffffff
def SHT_LOUSER : Nat := 0x80000000
def SHT_HIUSER : Nat := 0xffffffff

/-- Section type (`ShType`, sections.rs:222-243). -/
inductive ShType where
  | Null
  | ProgBits
  | SymTab
  | StrTab
  | Rela
  | Hash
  | Dynamic
  | Note
  | NoBits
  | Rel
  | ShLib
  | DynSym
  | InitArray
  | FiniArray
  | PreInitArray
  | Group
  | SymTabShIndex
  | OsSpecific (code : Nat)
  | ProcessorSpecific (code : Nat)
  | User (code : Nat)
  deriving DecidableEq, Repr

/-- Embeds `ShType_::as_sh_type` (sections.rs:246-271).  The raw code is a `u32`;
the fall-through arm aborts (`Panic.invalidTypeCode`).  Codes 12 and 13 are
deliberately absent from the match (the `// sic.` in the source). -/
def as_sh_type (st : Nat) : Except Panic ShType :=
  if st = 0 then .ok .Null
  else if st = 1 then .ok .ProgBits
  else if st = 2 then .ok .SymTab
  else if st = 3 then .ok .StrTab
  else if st = 4 then .ok .Rela
  else if st = 5 then .ok .Hash
  else if st = 6 then .ok .Dynamic
  else if st = 7 then .ok .Note
  else if st = 8 then .ok .NoBits
  else if st = 9 then .ok .Rel
  else if st = 10 then .ok .ShLib
  else if st = 11 then .ok .DynSym
  else if st = 14 then .ok .InitArray
  else if st = 15 then .ok .FiniArray
  else if st = 16 then .ok .PreInitArray
  else if st = 17 then .ok .Group
  else if st = 18 then .ok .SymTabShIndex
  else if SHT_LOOS ≤ st ∧ st ≤ SHT_HIOS then .ok (.OsSpecific st)
  else if SHT_LOPROC ≤ st ∧ st ≤ SHT_HIPROC then .ok (.ProcessorSpecific st)
  else if SHT_LOUSER ≤ st ∧ st ≤ SHT_HIUSER then .ok (.User st)
  else .error .invalidTypeCode

/-- Modelled from the spec: the Header Summary external collaborator
"exposes file word-width, section-table file offset, per-entry size, and
entry count" (§2); the designated string-table index is the one
`get_string` consults (§4.2).  The `header` module is not part of the
sources under verification. -/
structure Header where
  class_ : Class
  sh_offset : Nat
  sh_entry_size : Nat
  sh_count : Nat
  sh_str_index : Nat
  deriving DecidableEq, Repr

/-- Modelled from the spec: the top-level file handle, a raw byte buffer
plus its parsed header summary (`ElfFile` lives outside `sections.rs`). -/
structure ElfFile where
  input : List Nat
  header : Header
  deriving DecidableEq, Repr

/-- Rust slice indexing `&bs[start..stop]`: aborts when the range is
ill-formed or out of bounds. -/
def sliceBytes (bs : List Nat) (start stop : Nat) : Except Panic (List Nat) :=
  if start ≤ stop ∧ stop ≤ bs.length then .ok ((bs.take stop).drop start)
  else .error .sliceOutOfBounds

/-- Modelled from the spec: the Bounds-checked Overlay Reader's single-record
`read` (the `zero` crate, an external collaborator): it asserts the slice is
long enough for the fixed-size record and never reads outside it (§2). -/
def zeroRead (recordSize : Nat) (bs : List Nat) : Except Panic (List Nat) :=
  if recordSize ≤ bs.length then .ok bs else .error .overlayTooShort

/-- Here `chunksGo size fuel bs` splits `bs` into consecutive `size`-byte records. -/
def chunksGo (size : Nat) : Nat → List Nat → List (List Nat)
  | _, [] => []
  | 0, _ => []
  | fuel + 1, bs => bs.take size :: chunksGo size fuel (bs.drop size)

/-- Split a byte list into consecutive `size`-byte records. -/
def chunks (size : Nat) (bs : List Nat) : List (List Nat) :=
  chunksGo size bs.length bs

/-- Modelled from the spec: the Overlay Reader's `read_array`, "asserting the
slice length is an exact multiple of the record size" (§2), yielding the
consecutive records. -/
def zeroReadArray (recordSize : Nat) (bs : List Nat) : Except Panic (List (List Nat)) :=
  if bs.length % recordSize = 0 then .ok (chunks recordSize bs)
  else .error .arrayLenMismatch

/-- On-disk section-header record (`SectionHeader_<P>`, sections.rs:203-214);
field values are the decoded numbers, the width `P` lives in the handle tag. -/
structure SectionHeader_ where
  name : Nat
  type_ : Nat
  flags : Nat
  address : Nat
  offset : Nat
  size : Nat
  link : Nat
  info : Nat
  align : Nat
  entry_size : Nat
  deriving DecidableEq, Repr

/-- Decode a 32-bit (40-byte) section-header record, fields in on-disk order:
name(4) type(4) flags(4) address(4) offset(4) size(4) link(4) info(4)
align(4) entry_size(4) (spec §6). -/
def decodeSh32 (bs : List Nat) : SectionHeader_ :=
  { name := readLE (bytesAt bs 0 4)
    type_ := readLE (bytesAt bs 4 4)
    flags := readLE (bytesAt bs 8 4)
    address := readLE (bytesAt bs 12 4)
    offset := readLE (bytesAt bs 16 4)
    size := readLE (bytesAt bs 20 4)
    link := readLE (bytesAt bs 24 4)
    info := readLE (bytesAt bs 28 4)
    align := readLE (bytesAt bs 32 4)
    entry_size := readLE (bytesAt bs 36 4) }

/-- Decode a 64-bit (64-byte) section-header record, fields in on-disk order:
name(4) type(4) flags(8) address(8) offset(8) size(8) link(4) info(4)
align(8) entry_size(8) (spec §6). -/
def decodeSh64 (bs : List Nat) : SectionHeader_ :=
  { name := readLE (bytesAt bs 0 4)
    type_ := readLE (bytesAt bs 4 4)
    flags := readLE (bytesAt bs 8 8)
    address := readLE (bytesAt bs 16 8)
    offset := readLE (bytesAt bs 24 8)
    size := readLE (bytesAt bs 32 8)
    link := readLE (bytesAt bs 40 4)
    info := readLE (bytesAt bs 44 4)
    align := readLE (bytesAt bs 48 8)
    entry_size := readLE (bytesAt bs 56 8) }

/-- Encode a 32-bit section-header record on its 40-byte layout. -/
def encodeSh32 (h : SectionHeader_) : List Nat :=
  encodeLE 4 h.name ++ encodeLE 4 h.type_ ++ encodeLE 4 h.flags ++
  encodeLE 4 h.address ++ encodeLE 4 h.offset ++ encodeLE 4 h.size ++
  encodeLE 4 h.link ++ encodeLE 4 h.info ++ encodeLE 4 h.align ++
  encodeLE 4 h.entry_size

/-- Encode a 64-bit section-header record on its 64-byte layout. -/
def encodeSh64 (h : SectionHeader_) : List Nat :=
  encodeLE 4 h.name ++ encodeLE 4 h.type_ ++ encodeLE 8 h.flags ++
  encodeLE 8 h.address ++ encodeLE 8 h.offset ++ encodeLE 8 h.size ++
  encodeLE 4 h.link ++ encodeLE 4 h.info ++ encodeLE 8 h.align ++
  encodeLE 8 h.entry_size

/-- Width-tagged section-header handle (`SectionHeader`, sections.rs:67-70). -/
inductive SectionHeader where
  | Sh32 (h : SectionHeader_)
  | Sh64 (h : SectionHeader_)
  deriving DecidableEq, Repr

/-- Uniform getter `name` (the `getter!` macro, sections.rs:72-81,170). -/
def SectionHeader.name : SectionHeader → Nat
  | .Sh32 h => h.name
  | .Sh64 h => h.name

/-- Uniform getter `flags` (sections.rs:169). -/
def SectionHeader.flags : SectionHeader → Nat
  | .Sh32 h => h.flags
  | .Sh64 h => h.flags

/-- Uniform getter `offset` (sections.rs:171). -/
def SectionHeader.offset : SectionHeader → Nat
  | .Sh32 h => h.offset
  | .Sh64 h => h.offset

/-- Uniform getter `size` (sections.rs:172). -/
def SectionHeader.size : SectionHeader → Nat
  | .Sh32 h => h.size
  | .Sh64 h => h.size

/-- Uniform getter `type_` (sections.rs:173); the raw `u32` type code. -/
def SectionHeader.type_ : SectionHeader → Nat
  | .Sh32 h => h.type_
  | .Sh64 h => h.type_

/-- Embeds `SectionHeader::get_type` (sections.rs:93-95); classification can abort. -/
def SectionHeader.get_type (sh : SectionHeader) : Except Panic ShType :=
  as_sh_type sh.type_

/-- Embeds `parse_section_header` (sections.rs:12-32): asserts the index is below
the reserved threshold, computes the entry's byte window
`[index*entry_size+offset, +entry_size)`, hands it to the overlay reader and
tags the result by file class. -/
def parse_section_header (input : List Nat) (header : Header) (index : Nat) :
    Except Panic SectionHeader :=
  if index < SHN_LORESERVE then
    let start := index * header.sh_entry_size + header.sh_offset
    let stop := start + header.sh_entry_size
    match header.class_ with
    | .ThirtyTwo => do
        let w ← sliceBytes input start stop
        let r ← zeroRead 40 w
        .ok (.Sh32 (decodeSh32 r))
    | .SixtyFour => do
        let w ← sliceBytes input start stop
        let r ← zeroRead 64 w
        .ok (.Sh64 (decodeSh64 r))
    | .None => .error .unreachableClassNone
  else .error .indexOutOfRange

/-- Embeds `SectionHeader::raw_data` (sections.rs:164-167): asserts the type is not
`Null`, then returns the byte slice `[offset, offset+size)` of the file
buffer. -/
def SectionHeader.raw_data (sh : SectionHeader) (elf_file : ElfFile) :
    Except Panic (List Nat) := do
  let t ← sh.get_type
  if t = ShType.Null then .error .nullSectionRawData
  else sliceBytes elf_file.input sh.offset (sh.offset + sh.size)

/-- Modelled from the spec: `ElfFile::get_string` (outside `sections.rs`)
"looks up the name in the file's designated string-table section by scanning
for the NUL terminator starting at the given byte offset" (§4.2). -/
def ElfFile.get_string (elf_file : ElfFile) (offset : Nat) : Except Panic (List Nat) := do
  let strtab ← parse_section_header elf_file.input elf_file.header elf_file.header.sh_str_index
  let data ← strtab.raw_data elf_file
  .ok ((data.drop offset).takeWhile (fun b => b ≠ 0))

/-- Embeds `SectionHeader::get_name` (sections.rs:85-91): a recoverable `Result`
that is the Null-section error for `Null`-type headers and otherwise a
string-table lookup. -/
def SectionHeader.get_name (sh : SectionHeader) (elf_file : ElfFile) :
    Except Panic (Except String (List Nat)) := do
  let t ← sh.get_type
  if t = ShType.Null then .ok (.error "Attempt to get name of null section")
  else do
    let s ← elf_file.get_string sh.name
    .ok (.ok s)

/-- Modelled from the spec: a 32-bit symbol-table entry (an external
collaborator, `symbol_table::Entry32`); only its record size — the standard
16-byte `Elf32_Sym` layout — matters to the materializer, so it carries its
raw record bytes. -/
structure Entry32 where
  raw : List Nat
  deriving DecidableEq, Repr

/-- Modelled from the spec: a 64-bit symbol-table entry
(`symbol_table::Entry64`, standard 24-byte `Elf64_Sym` layout), raw bytes. -/
structure Entry64 where
  raw : List Nat
  deriving DecidableEq, Repr

/-- Modelled from the spec: a 32-bit dynamic-symbol-table entry
(`symbol_table::DynEntry32`, 16-byte records), raw bytes. -/
structure DynEntry32 where
  raw : List Nat
  deriving DecidableEq, Repr

/-- Modelled from the spec: a 64-bit dynamic-symbol-table entry
(`symbol_table::DynEntry64`, 24-byte records), raw bytes. -/
structure DynEntry64 where
  raw : List Nat
  deriving DecidableEq, Repr

/-- Modelled from the spec: a dynamic entry with 32-bit fields
(`dynamic::Dynamic<P32>`, outside `sections.rs`): "a tag/value pair used by
the dynamic linker" (glossary), 8 bytes (tag:u32, value:u32). -/
structure DynamicP32 where
  tag : Nat
  un : Nat
  deriving DecidableEq, Repr

/-- Modelled from the spec: a dynamic entry with 64-bit fields
(`dynamic::Dynamic<P64>`), 16 bytes (tag:u64, value:u64). -/
structure DynamicP64 where
  tag : Nat
  un : Nat
  deriving DecidableEq, Repr

/-- Decode a `Dynamic<P32>` record from its 8 bytes. -/
def decodeDynamicP32 (bs : List Nat) : DynamicP32 :=
  { tag := readLE (bytesAt bs 0 4), un := readLE (bytesAt bs 4 4) }

/-- Decode a `Dynamic<P64>` record from its 16 bytes. -/
def decodeDynamicP64 (bs : List Nat) : DynamicP64 :=
  { tag := readLE (bytesAt bs 0 8), un := readLE (bytesAt bs 8 8) }

/-- Embeds `Rela<P32>` (sections.rs:406-410): offset, info, addend as `u32`s. -/
structure RelaP32 where
  offset : Nat
  info : Nat
  addend : Nat
  deriving DecidableEq, Repr

/-- Embeds `Rela<P64>`: offset, info, addend as `u64`s. -/
structure RelaP64 where
  offset : Nat
  info : Nat
  addend : Nat
  deriving DecidableEq, Repr

/-- Embeds `Rel<P32>` (sections.rs:412-416): offset, info as `u32`s. -/
structure RelP32 where
  offset : Nat
  info : Nat
  deriving DecidableEq, Repr

/-- Embeds `Rel<P64>`: offset, info as `u64`s. -/
structure RelP64 where
  offset : Nat
  info : Nat
  deriving DecidableEq, Repr

/-- Decode a `Rela<P32>` record from its 12 bytes. -/
def decodeRelaP32 (bs : List Nat) : RelaP32 :=
  { offset := readLE (bytesAt bs 0 4), info := readLE (bytesAt bs 4 4),
    addend := readLE (bytesAt bs 8 4) }

/-- Decode a `Rela<P64>` record from its 24 bytes. -/
def decodeRelaP64 (bs : List Nat) : RelaP64 :=
  { offset := readLE (bytesAt bs 0 8), info := readLE (bytesAt bs 8 8),
    addend := readLE (bytesAt bs 16 8) }

/-- Decode a `Rel<P32>` record from its 8 bytes. -/
def decodeRelP32 (bs : List Nat) : RelP32 :=
  { offset := readLE (bytesAt bs 0 4), info := readLE (bytesAt bs 4 4) }

/-- Decode a `Rel<P64>` record from its 16 bytes. -/
def decodeRelP64 (bs : List Nat) : RelP64 :=
  { offset := readLE (bytesAt bs 0 8), info := readLE (bytesAt bs 8 8) }

/-- Embeds `Rela<P32>::get_offset` (sections.rs:422). -/
def RelaP32.get_offset (r : RelaP32) : Nat := r.offset

/-- Embeds `Rela<P32>::get_addend` (sections.rs:425). -/
def RelaP32.get_addend (r : RelaP32) : Nat := r.addend

/-- Embeds `Rela<P32>::get_symbol_table_index` (sections.rs:428): `self.info >> 8`. -/
def RelaP32.get_symbol_table_index (r : RelaP32) : Nat := r.info >>> 8

/-- Embeds `Rela<P32>::get_type` (sections.rs:431): `self.info as u8`. -/
def RelaP32.get_type (r : RelaP32) : Nat := r.info % 256

/-- Embeds `Rela<P64>::get_offset` (sections.rs:436). -/
def RelaP64.get_offset (r : RelaP64) : Nat := r.offset

/-- Embeds `Rela<P64>::get_addend` (sections.rs:439). -/
def RelaP64.get_addend (r : RelaP64) : Nat := r.addend

/-- Embeds `Rela<P64>::get_symbol_table_index` (sections.rs:442):
`(self.info >> 32) as u32`. -/
def RelaP64.get_symbol_table_index (r : RelaP64) : Nat := (r.info >>> 32) % 2 ^ 32

/-- Embeds `Rela<P64>::get_type` (sections.rs:445): `(self.info & 0xffffffff) as u32`. -/
def RelaP64.get_type (r : RelaP64) : Nat := (r.info &&& 0xffffffff) % 2 ^ 32

/-- Embeds `Rel<P32>::get_offset` (sections.rs:450). -/
def RelP32.get_offset (r : RelP32) : Nat := r.offset

/-- Embeds `Rel<P32>::get_symbol_table_index` (sections.rs:453): `self.info >> 8`. -/
def RelP32.get_symbol_table_index (r : RelP32) : Nat := r.info >>> 8

/-- Embeds `Rel<P32>::get_type` (sections.rs:456): `self.info as u8`. -/
def RelP32.get_type (r : RelP32) : Nat := r.info % 256

/-- Embeds `Rel<P64>::get_offset` (sections.rs:461). -/
def RelP64.get_offset (r : RelP64) : Nat := r.offset

/-- Embeds `Rel<P64>::get_symbol_table_index` (sections.rs:464):
`(self.info >> 32) as u32`. -/
def RelP64.get_symbol_table_index (r : RelP64) : Nat := (r.info >>> 32) % 2 ^ 32

/-- Embeds `Rel<P64>::get_type` (sections.rs:467): `(self.info & 0xffffffff) as u32`. -/
def RelP64.get_type (r : RelP64) : Nat := (r.info &&& 0xffffffff) % 2 ^ 32

/-- Embeds `NoteHeader` (sections.rs:474-478): three `u32` fields. -/
structure NoteHeader where
  name_size : Nat
  desc_size : Nat
  type_ : Nat
  deriving DecidableEq, Repr

/-- Decode a `NoteHeader` from its 12 bytes. -/
def decodeNoteHeader (bs : List Nat) : NoteHeader :=
  { name_size := readLE (bytesAt bs 0 4), desc_size := readLE (bytesAt bs 4 4),
    type_ := readLE (bytesAt bs 8 4) }

/-- Modelled from the spec: the hash-table overlay (`hash::HashTable`, an
external collaborator): "fixed-layout HashTable overlay of the first 12
bytes (bucket/chain count header)" (§4.4); carries those 12 raw bytes. -/
structure HashTableRec where
  raw : List Nat
  deriving DecidableEq, Repr

/-- Embeds `SectionData` (sections.rs:280-302).  Note the `Dynamic32`/`Dynamic64`
payload element types, which mirror sections.rs:299-300 exactly: there
`Dynamic32` holds `&[Dynamic<P64>]` and `Dynamic64` holds `&[Dynamic<P32>]` —
the width parameters are swapped relative to the variant names. -/
inductive SectionData where
  | Empty
  | Undefined (bytes : List Nat)
  | Group (flags : Nat) (indicies : List Nat)
  | StrArray (bytes : List Nat)
  | FnArray32 (xs : List Nat)
  | FnArray64 (xs : List Nat)
  | SymbolTable32 (xs : List Entry32)
  | SymbolTable64 (xs : List Entry64)
  | DynSymbolTable32 (xs : List DynEntry32)
  | DynSymbolTable64 (xs : List DynEntry64)
  | SymTabShIndex (xs : List Nat)
  | Note64 (header : NoteHeader) (index : List Nat)
  | Rela32 (xs : List RelaP32)
  | Rela64 (xs : List RelaP64)
  | Rel32 (xs : List RelP32)
  | Rel64 (xs : List RelP64)
  | Dynamic32 (xs : List DynamicP64)
  | Dynamic64 (xs : List DynamicP32)
  | HashTable (t : HashTableRec)
  deriving DecidableEq, Repr

/-- One arm of the `array_data!` macro of `get_data` (sections.rs:98-107):
take the section's raw data and overlay it as an array of records whose
size and constructor are chosen by the file class. -/
def array_data (sh : SectionHeader) (elf_file : ElfFile)
    (size32 size64 : Nat)
    (data32 : List (List Nat) → SectionData)
    (data64 : List (List Nat) → SectionData) : Except Panic SectionData := do
  let data ← sh.raw_data elf_file
  match elf_file.header.class_ with
  | .ThirtyTwo => do
      let recs ← zeroReadArray size32 data
      .ok (data32 recs)
  | .SixtyFour => do
      let recs ← zeroReadArray size64 data
      .ok (data64 recs)
  | .None => .error .unreachableClassNone

/-- Embeds `SectionHeader::get_data` (sections.rs:97-162): the Section Data
Materializer, dispatching on the classified section type.  The record sizes
fed to the overlay reader are those of the Rust element types at each call
site; in particular the `Dynamic` branch reads `Dynamic<P64>` (16-byte)
records for class 32 and `Dynamic<P32>` (8-byte) records for class 64,
because of the swapped payload types at sections.rs:299-300. -/
def SectionHeader.get_data (sh : SectionHeader) (elf_file : ElfFile) :
    Except Panic SectionData := do
  let t ← sh.get_type
  match t with
  | .Null | .NoBits => .ok .Empty
  | .ProgBits | .ShLib | .OsSpecific _ | .ProcessorSpecific _ | .User _ => do
      let data ← sh.raw_data elf_file
      .ok (.Undefined data)
  | .SymTab =>
      array_data sh elf_file 16 24
        (fun rs => .SymbolTable32 (rs.map Entry32.mk))
        (fun rs => .SymbolTable64 (rs.map Entry64.mk))
  | .DynSym =>
      array_data sh elf_file 16 24
        (fun rs => .DynSymbolTable32 (rs.map DynEntry32.mk))
        (fun rs => .DynSymbolTable64 (rs.map DynEntry64.mk))
  | .StrTab => do
      let data ← sh.raw_data elf_file
      .ok (.StrArray data)
  | .InitArray | .FiniArray | .PreInitArray =>
      array_data sh elf_file 4 8
        (fun rs => .FnArray32 (rs.map readLE))
        (fun rs => .FnArray64 (rs.map readLE))
  | .Rela =>
      array_data sh elf_file 12 24
        (fun rs => .Rela32 (rs.map decodeRelaP32))
        (fun rs => .Rela64 (rs.map decodeRelaP64))
  | .Rel =>
      array_data sh elf_file 8 16
        (fun rs => .Rel32 (rs.map decodeRelP32))
        (fun rs => .Rel64 (rs.map decodeRelP64))
  | .Dynamic =>
      array_data sh elf_file 16 8
        (fun rs => .Dynamic32 (rs.map decodeDynamicP64))
        (fun rs => .Dynamic64 (rs.map decodeDynamicP32))
  | .Group => do
      let data ← sh.raw_data elf_file
      if 4 ≤ data.length then do
        let flags := readLE (bytesAt data 0 4)
        let recs ← zeroReadArray 4 (data.drop 4)
        .ok (.Group flags (recs.map readLE))
      else .error .sliceOutOfBounds
  | .SymTabShIndex => do
      let data ← sh.raw_data elf_file
      let recs ← zeroReadArray 4 data
      .ok (.SymTabShIndex (recs.map readLE))
  | .Note => do
      let data ← sh.raw_data elf_file
      match elf_file.header.class_ with
      | .ThirtyTwo => .error .unimplemented
      | .SixtyFour => do
          let hdr ← sliceBytes data 0 12
          .ok (.Note64 (decodeNoteHeader hdr) (data.drop 12))
      | .None => .error .unreachableClassNone
  | .Hash => do
      let data ← sh.raw_data elf_file
      let hdr ← sliceBytes data 0 12
      .ok (.HashTable ⟨hdr⟩)

/-- Embeds `SectionStrings` (sections.rs:304-306): the String-Table Scanner's state,
the as-yet-unscanned bytes, positioned just after the previous terminator. -/
structure SectionStrings where
  data : List Nat
  deriving DecidableEq, Repr

/-- Modelled from the spec: constructing the scanner (`read_strs_to_null` of
the external `zero` crate): scanning "locates the next NUL byte starting
after the previous terminator" (§4.5), so the initial position is just after
the string table's first terminator; on `b"\x00foo\x00bar\x00"` the scanner
yields exactly ["foo","bar"] (§8). -/
def read_strs_to_null (data : List Nat) : SectionStrings :=
  ⟨(data.dropWhile (fun b => b ≠ 0)).drop 1⟩

/-- Modelled from the spec: one step of the String-Table Scanner
(`Iterator::next`, sections.rs:308-315): yields the bytes up to the next NUL
and advances past it; "terminates when the underlying slice is exhausted"
(§4.5). -/
def SectionStrings.next (s : SectionStrings) : Option (List Nat × SectionStrings) :=
  match s.data with
  | [] => none
  | _ =>
      let str := s.data.takeWhile (fun b => b ≠ 0)
      some (str, ⟨s.data.drop (str.length + 1)⟩)

/-- Embeds `SectionData::strings` (sections.rs:317-325): a recoverable `Result`,
`Err(())` on any non-`StrArray` payload. -/
def SectionData.strings (sd : SectionData) : Except Unit SectionStrings :=
  match sd with
  | .StrArray data => .ok (read_strs_to_null data)
  | _ => .error ()

/-- Drive the scanner at most `fuel` steps, collecting the yielded strings. -/
def collectStrings : Nat → SectionStrings → List (List Nat)
  | 0, _ => []
  | fuel + 1, s =>
      match s.next with
      | none => []
      | some (str, s') => str :: collectStrings fuel s'

/-- Embeds `sanity_check` (sections.rs:501-507): an early `Ok(())` for `Null`-type
headers, then — no validation at all — `Ok(())`. -/
def sanity_check (header : SectionHeader) (file : ElfFile) : Except Panic Unit := do
  let t ← header.get_type
  if t = ShType.Null then .ok ()
  else .ok ()

/-! ### Helper lemmas -/

theorem encodeLE_length (k n : Nat) : (encodeLE k n).length = k := by
  induction k generalizing n with
  | zero => rfl
  | succ k ih => simp [encodeLE, ih]

theorem readLE_encodeLE (k n : Nat) (h : n < 2 ^ (8 * k)) :
    readLE (encodeLE k n) = n := by
  induction k generalizing n with
  | zero =>
      simp [encodeLE, readLE]
      omega
  | succ k ih =>
      have hdiv : n / 256 < 2 ^ (8 * k) := by
        rw [Nat.div_lt_iff_lt_mul (by norm_num)]
        calc n < 2 ^ (8 * (k + 1)) := h
        _ = 2 ^ (8 * k) * 256 := by ring
      simp only [encodeLE, readLE, List.foldr_cons]
      have hk := ih (n / 256) hdiv
      simp only [readLE] at hk
      rw [hk, Nat.mod_add_div]

theorem readLE_encodeLE4 (n : Nat) (h : n < 2 ^ 32) : readLE (encodeLE 4 n) = n :=
  readLE_encodeLE 4 n (by norm_num at h ⊢; exact h)

theorem readLE_encodeLE8 (n : Nat) (h : n < 2 ^ 64) : readLE (encodeLE 8 n) = n :=
  readLE_encodeLE 8 n (by norm_num at h ⊢; exact h)

theorem ok_bind {ε α β : Type} (a : α) (f : α → Except ε β) :
    (Except.ok a >>= f : Except ε β) = f a := rfl

theorem error_bind {ε α β : Type} (e : ε) (f : α → Except ε β) :
    (Except.error e >>= f : Except ε β) = Except.error e := rfl

theorem bytesAt_length (bs : List Nat) (off len : Nat)
    (h : off + len ≤ bs.length) : (bytesAt bs off len).length = len := by
  simp [bytesAt]
  omega

theorem sliceBytes_eq_bytesAt (bs : List Nat) (start len : Nat)
    (h : start + len ≤ bs.length) :
    sliceBytes bs start (start + len) = .ok (bytesAt bs start len) := by
  simp only [sliceBytes, bytesAt, if_pos (by omega : start ≤ start + len ∧ start + len ≤ bs.length)]
  rw [List.drop_take]
  simp

/-! ### Claim theorems -/

/-- C1 (code bug evidence): in a 32-bit-class file, `get_data` on a
`Dynamic`-type section reads the payload as an array of 64-bit-wide
(16-byte `Dynamic<P64>`) entries, because `SectionData::Dynamic32` holds
`&[Dynamic<P64>]` (sections.rs:299).  On a section holding exactly one
32-bit (8-byte) dynamic entry the overlay reader's multiple-of-record-size
assertion aborts (8 is not a multiple of 16); on 16 bytes of data it yields
a single 64-bit-layout entry whose tag is read from all 8 leading bytes —
not the two 32-bit entries the claim promises. -/
theorem dynamic_entries_width_swapped :
    SectionHeader.get_data (.Sh32 ⟨0, 6, 0, 0, 0, 8, 0, 0, 0, 0⟩)
      ⟨[1, 0, 0, 0, 2, 0, 0, 0], ⟨Class.ThirtyTwo, 0, 40, 1, 0⟩⟩ =
      .error .arrayLenMismatch ∧
    SectionHeader.get_data (.Sh32 ⟨0, 6, 0, 0, 0, 16, 0, 0, 0, 0⟩)
      ⟨[1, 0, 0, 0, 0, 0, 0, 0, 2, 0, 0, 0, 0, 0, 0, 0], ⟨Class.ThirtyTwo, 0, 40, 1, 0⟩⟩ =
      .ok (.Dynamic32 [⟨1, 2⟩]) := by
  constructor <;> rfl

/-- C2: section-type classification is total over the raw 32-bit code —
the three reserved ranges map to `OsSpecific`/`ProcessorSpecific`/`User`
carrying the code, every unmatched code (12, 13, and all of
`[19, 0x60000000)`) fails with the invalid-type-code abort, and the named
codes map to their kinds. -/
theorem as_sh_type_total_classification :
    (∀ st, SHT_LOOS ≤ st → st ≤ SHT_HIOS →
      as_sh_type st = .ok (.OsSpecific st)) ∧
    (∀ st, SHT_LOPROC ≤ st → st ≤ SHT_HIPROC →
      as_sh_type st = .ok (.ProcessorSpecific st)) ∧
    (∀ st, SHT_LOUSER ≤ st → st ≤ SHT_HIUSER →
      as_sh_type st = .ok (.User st)) ∧
    (∀ st, 19 ≤ st → st < SHT_LOOS → as_sh_type st = .error .invalidTypeCode) ∧
    (as_sh_type 0 = .ok .Null ∧ as_sh_type 1 = .ok .ProgBits ∧
     as_sh_type 2 = .ok .SymTab ∧ as_sh_type 3 = .ok .StrTab ∧
     as_sh_type 4 = .ok .Rela ∧ as_sh_type 5 = .ok .Hash ∧
     as_sh_type 6 = .ok .Dynamic ∧ as_sh_type 7 = .ok .Note ∧
     as_sh_type 8 = .ok .NoBits ∧ as_sh_type 9 = .ok .Rel ∧
     as_sh_type 10 = .ok .ShLib ∧ as_sh_type 11 = .ok .DynSym ∧
     as_sh_type 14 = .ok .InitArray ∧ as_sh_type 15 = .ok .FiniArray ∧
     as_sh_type 16 = .ok .PreInitArray ∧ as_sh_type 17 = .ok .Group ∧
     as_sh_type 18 = .ok .SymTabShIndex ∧
     as_sh_type 12 = .error .invalidTypeCode ∧
     as_sh_type 13 = .error .invalidTypeCode) := by
  refine ⟨?_, ?_, ?_, ?_,
    rfl, rfl, rfl, rfl, rfl, rfl, rfl, rfl, rfl, rfl, rfl, rfl, rfl, rfl, rfl,
    rfl, rfl, rfl, rfl⟩ <;>
    intro st h1 h2 <;>
    simp only [SHT_LOOS, SHT_HIOS, SHT_LOPROC, SHT_HIPROC, SHT_LOUSER, SHT_HIUSER] at h1 h2 <;>
    show (if st = 0 then _ else _) = _
  · rw [
      if_neg (by omega : ¬ st = 0),
      if_neg (by omega : ¬ st = 1),
      if_neg (by omega : ¬ st = 2),
      if_neg (by omega : ¬ st = 3),
      if_neg (by omega : ¬ st = 4),
      if_neg (by omega : ¬ st = 5),
      if_neg (by omega : ¬ st = 6),
      if_neg (by omega : ¬ st = 7),
      if_neg (by omega : ¬ st = 8),
      if_neg (by omega : ¬ st = 9),
      if_neg (by omega : ¬ st = 10),
      if_neg (by omega : ¬ st = 11),
      if_neg (by omega : ¬ st = 14),
      if_neg (by omega : ¬ st = 15),
      if_neg (by omega : ¬ st = 16),
      if_neg (by omega : ¬ st = 17),
      if_neg (by omega : ¬ st = 18),
      if_pos (show SHT_LOOS ≤ st ∧ st ≤ SHT_HIOS by
        simp only [SHT_LOOS, SHT_HIOS]; omega)]
  · rw [
      if_neg (by omega : ¬ st = 0),
      if_neg (by omega : ¬ st = 1),
      if_neg (by omega : ¬ st = 2),
      if_neg (by omega : ¬ st = 3),
      if_neg (by omega : ¬ st = 4),
      if_neg (by omega : ¬ st = 5),
      if_neg (by omega : ¬ st = 6),
      if_neg (by omega : ¬ st = 7),
      if_neg (by omega : ¬ st = 8),
      if_neg (by omega : ¬ st = 9),
      if_neg (by omega : ¬ st = 10),
      if_neg (by omega : ¬ st = 11),
      if_neg (by omega : ¬ st = 14),
      if_neg (by omega : ¬ st = 15),
      if_neg (by omega : ¬ st = 16),
      if_neg (by omega : ¬ st = 17),
      if_neg (by omega : ¬ st = 18),
      if_neg (show ¬(SHT_LOOS ≤ st ∧ st ≤ SHT_HIOS) by
        simp only [SHT_LOOS, SHT_HIOS]; omega),
      if_pos (show SHT_LOPROC ≤ st ∧ st ≤ SHT_HIPROC by
        simp only [SHT_LOPROC, SHT_HIPROC]; omega)]
  · rw [
      if_neg (by omega : ¬ st = 0),
      if_neg (by omega : ¬ st = 1),
      if_neg (by omega : ¬ st = 2),
      if_neg (by omega : ¬ st = 3),
      if_neg (by omega : ¬ st = 4),
      if_neg (by omega : ¬ st = 5),
      if_neg (by omega : ¬ st = 6),
      if_neg (by omega : ¬ st = 7),
      if_neg (by omega : ¬ st = 8),
      if_neg (by omega : ¬ st = 9),
      if_neg (by omega : ¬ st = 10),
      if_neg (by omega : ¬ st = 11),
      if_neg (by omega : ¬ st = 14),
      if_neg (by omega : ¬ st = 15),
      if_neg (by omega : ¬ st = 16),
      if_neg (by omega : ¬ st = 17),
      if_neg (by omega : ¬ st = 18),
      if_neg (show ¬(SHT_LOOS ≤ st ∧ st ≤ SHT_HIOS) by
        simp only [SHT_LOOS, SHT_HIOS]; omega),
      if_neg (show ¬(SHT_LOPROC ≤ st ∧ st ≤ SHT_HIPROC) by
        simp only [SHT_LOPROC, SHT_HIPROC]; omega),
      if_pos (show SHT_LOUSER ≤ st ∧ st ≤ SHT_HIUSER by
        simp only [SHT_LOUSER, SHT_HIUSER]; omega)]
  · rw [
      if_neg (by omega : ¬ st = 0),
      if_neg (by omega : ¬ st = 1),
      if_neg (by omega : ¬ st = 2),
      if_neg (by omega : ¬ st = 3),
      if_neg (by omega : ¬ st = 4),
      if_neg (by omega : ¬ st = 5),
      if_neg (by omega : ¬ st = 6),
      if_neg (by omega : ¬ st = 7),
      if_neg (by omega : ¬ st = 8),
      if_neg (by omega : ¬ st = 9),
      if_neg (by omega : ¬ st = 10),
      if_neg (by omega : ¬ st = 11),
      if_neg (by omega : ¬ st = 14),
      if_neg (by omega : ¬ st = 15),
      if_neg (by omega : ¬ st = 16),
      if_neg (by omega : ¬ st = 17),
      if_neg (by omega : ¬ st = 18),
      if_neg (show ¬(SHT_LOOS ≤ st ∧ st ≤ SHT_HIOS) by
        simp only [SHT_LOOS, SHT_HIOS]; omega),
      if_neg (show ¬(SHT_LOPROC ≤ st ∧ st ≤ SHT_HIPROC) by
        simp only [SHT_LOPROC, SHT_HIPROC]; omega),
      if_neg (show ¬(SHT_LOUSER ≤ st ∧ st ≤ SHT_HIUSER) by
        simp only [SHT_LOUSER, SHT_HIUSER]; omega)]

/-- Witness for C2 at a concrete OS-specific code. -/
theorem as_sh_type_total_classification_witness :
    as_sh_type 0x61000000 = .ok (.OsSpecific 0x61000000) :=
  as_sh_type_total_classification.1 0x61000000 (by decide) (by decide)

/-- C3: for every relocation entry, the `info` field splits by width —
32-bit `Rel`/`Rela` entries have symbol index `info >> 8` and type
`info & 0xff`, 64-bit entries have symbol index `info >> 32` and type
`info & 0xffffffff`; in particular a 64-bit `Rela` with
`info = (5 << 32) | 9` has symbol index 5 and type 9. -/
theorem relocation_info_split :
    (∀ r : RelaP32, r.get_symbol_table_index = r.info >>> 8 ∧
      r.get_type = r.info &&& 0xff) ∧
    (∀ r : RelP32, r.get_symbol_table_index = r.info >>> 8 ∧
      r.get_type = r.info &&& 0xff) ∧
    (∀ r : RelaP64, r.info < 2 ^ 64 → r.get_symbol_table_index = r.info >>> 32 ∧
      r.get_type = r.info &&& 0xffffffff) ∧
    (∀ r : RelP64, r.info < 2 ^ 64 → r.get_symbol_table_index = r.info >>> 32 ∧
      r.get_type = r.info &&& 0xffffffff) ∧
    (RelaP64.get_symbol_table_index ⟨0, (5 <<< 32) ||| 9, 0⟩ = 5 ∧
      RelaP64.get_type ⟨0, (5 <<< 32) ||| 9, 0⟩ = 9) := by
  have hmask8 : ∀ n : Nat, n &&& 0xff = n % 256 := by
    intro n
    have := Nat.and_pow_two_sub_one_eq_mod n 8
    norm_num at this
    exact this
  have hmask32 : ∀ n : Nat, n &&& 0xffffffff = n % 2 ^ 32 := by
    intro n
    have := Nat.and_pow_two_sub_one_eq_mod n 32
    norm_num at this ⊢
    exact this
  have hshift : ∀ n : Nat, n < 2 ^ 64 → n >>> 32 % 2 ^ 32 = n >>> 32 := by
    intro n hn
    rw [Nat.shiftRight_eq_div_pow]
    apply Nat.mod_eq_of_lt
    rw [Nat.div_lt_iff_lt_mul (by norm_num)]
    calc n < 2 ^ 64 := hn
    _ = 2 ^ 32 * 2 ^ 32 := by norm_num
  refine ⟨?_, ?_, ?_, ?_, by decide, by decide⟩
  · intro r
    exact ⟨rfl, by rw [RelaP32.get_type, hmask8]⟩
  · intro r
    exact ⟨rfl, by rw [RelP32.get_type, hmask8]⟩
  · intro r hr
    refine ⟨hshift r.info hr, ?_⟩
    rw [RelaP64.get_type, hmask32]
    exact Nat.mod_mod_of_dvd r.info dvd_rfl
  · intro r hr
    refine ⟨hshift r.info hr, ?_⟩
    rw [RelP64.get_type, hmask32]
    exact Nat.mod_mod_of_dvd r.info dvd_rfl

/-- Witness for C3 at the spec's concrete 64-bit Rela entry. -/
theorem relocation_info_split_witness :
    RelaP64.get_symbol_table_index ⟨0, (5 <<< 32) ||| 9, 0⟩ =
      ((5 <<< 32) ||| 9) >>> 32 :=
  (relocation_info_split.2.2.1 ⟨0, (5 <<< 32) ||| 9, 0⟩ (by decide)).1

/-- C4 (counterexample): on a Note-type section of a 32-bit-class file,
`get_data` hits the `unimplemented` abort — a process abort in the `Panic`
channel, not a recoverable "unsupported" error value — so the claim that it
raises a *recoverable* UnsupportedNoteWidth condition is false. -/
theorem note32_get_data_aborts :
    SectionHeader.get_data (.Sh32 ⟨0, 7, 0, 0, 0, 4, 0, 0, 0, 0⟩)
      ⟨[0, 0, 0, 0], ⟨Class.ThirtyTwo, 0, 40, 1, 0⟩⟩ = .error .unimplemented := rfl

/-- C4 (amended): on a Note-type section whose raw data is available,
`get_data` in a 32-bit-class file aborts with the explicit `unimplemented`
panic (it never misparses, but the condition is an abort, not recoverable),
and in a 64-bit-class file overlays a 12-byte `NoteHeader` on the first 12
bytes and passes the remaining bytes through. -/
theorem get_data_note_spec (sh : SectionHeader) (elf : ElfFile) (data : List Nat)
    (ht : sh.get_type = .ok .Note) (hd : sh.raw_data elf = .ok data) :
    (elf.header.class_ = .ThirtyTwo →
      sh.get_data elf = .error .unimplemented) ∧
    (elf.header.class_ = .SixtyFour → 12 ≤ data.length →
      sh.get_data elf =
        .ok (.Note64 (decodeNoteHeader (bytesAt data 0 12)) (data.drop 12))) := by
  constructor
  · intro hc
    simp [SectionHeader.get_data, ht, hd, hc, ok_bind]
  · intro hc hlen
    have hs : sliceBytes data 0 12 = .ok (bytesAt data 0 12) := by
      have := sliceBytes_eq_bytesAt data 0 12 (by omega)
      simpa using this
    simp [SectionHeader.get_data, ht, hd, hc, hs, ok_bind]

/-- Witness for C4's amended theorem: a concrete 64-bit note section of 14
bytes is split into its 12-byte header overlay and 2 trailing bytes. -/
theorem get_data_note_spec_witness :
    SectionHeader.get_data (.Sh64 ⟨0, 7, 0, 0, 0, 14, 0, 0, 0, 0⟩)
      ⟨[4, 0, 0, 0, 1, 0, 0, 0, 2, 0, 0, 0, 65, 0], ⟨Class.SixtyFour, 0, 64, 1, 0⟩⟩ =
      .ok (.Note64 ⟨4, 1, 2⟩ [65, 0]) := by
  have h := get_data_note_spec (.Sh64 ⟨0, 7, 0, 0, 0, 14, 0, 0, 0, 0⟩)
    ⟨[4, 0, 0, 0, 1, 0, 0, 0, 2, 0, 0, 0, 65, 0], ⟨Class.SixtyFour, 0, 64, 1, 0⟩⟩
    [4, 0, 0, 0, 1, 0, 0, 0, 2, 0, 0, 0, 65, 0] rfl rfl
  exact h.2 rfl (by decide)

/-- C5: decoding a section header at any index at or above the reserved
threshold 0xff00 fails with the index-out-of-range abort whatever the
buffer holds (so the buffer is never dereferenced), and below the threshold
the decoded entry is read from exactly the byte window
`[index*entry_size+table_offset, index*entry_size+table_offset+entry_size)`
and tagged `Sh32` or `Sh64` according to the file class. -/
theorem parse_section_header_spec :
    (∀ (input : List Nat) (header : Header) (index : Nat),
      SHN_LORESERVE ≤ index →
      parse_section_header input header index = .error .indexOutOfRange) ∧
    (∀ (input : List Nat) (header : Header) (index : Nat),
      index < SHN_LORESERVE →
      index * header.sh_entry_size + header.sh_offset + header.sh_entry_size ≤
        input.length →
      (header.class_ = .ThirtyTwo → 40 ≤ header.sh_entry_size →
        parse_section_header input header index =
          .ok (.Sh32 (decodeSh32 (bytesAt input
            (index * header.sh_entry_size + header.sh_offset)
            header.sh_entry_size)))) ∧
      (header.class_ = .SixtyFour → 64 ≤ header.sh_entry_size →
        parse_section_header input header index =
          .ok (.Sh64 (decodeSh64 (bytesAt input
            (index * header.sh_entry_size + header.sh_offset)
            header.sh_entry_size))))) := by
  constructor
  · intro input header index hi
    rw [parse_section_header, if_neg (by omega)]
  · intro input header index hi hlen
    have hslice := sliceBytes_eq_bytesAt input
      (index * header.sh_entry_size + header.sh_offset) header.sh_entry_size hlen
    have hblen : (bytesAt input (index * header.sh_entry_size + header.sh_offset)
        header.sh_entry_size).length = header.sh_entry_size :=
      bytesAt_length _ _ _ hlen
    constructor
    · intro hc h40
      rw [parse_section_header, if_pos hi]
      simp only [hc, hslice, ok_bind]
      rw [zeroRead, if_pos (by omega), ok_bind]
    · intro hc h64
      rw [parse_section_header, if_pos hi]
      simp only [hc, hslice, ok_bind]
      rw [zeroRead, if_pos (by omega), ok_bind]

/-- Witness for C5: a reserved index fails on an empty buffer, and index 1
of a concrete 32-bit table is decoded from its own 40-byte window. -/
theorem parse_section_header_spec_witness :
    parse_section_header [] ⟨Class.ThirtyTwo, 0, 40, 1, 0⟩ 0xff00 =
      .error .indexOutOfRange :=
  parse_section_header_spec.1 [] ⟨Class.ThirtyTwo, 0, 40, 1, 0⟩ 0xff00 (by decide)

/-- C6: a `Null`-type section header has no name (`get_name` is the
recoverable null-section error), yields no raw data slice (`raw_data`
aborts), and materializes as the `Empty` payload. -/
theorem null_section_behaviour (sh : SectionHeader) (elf : ElfFile)
    (ht : sh.get_type = .ok .Null) :
    sh.get_name elf = .ok (.error "Attempt to get name of null section") ∧
    sh.raw_data elf = .error .nullSectionRawData ∧
    sh.get_data elf = .ok .Empty := by
  refine ⟨?_, ?_, ?_⟩
  · simp [SectionHeader.get_name, ht, ok_bind]
  · simp [SectionHeader.raw_data, ht, ok_bind]
  · simp [SectionHeader.get_data, ht, ok_bind]

/-- Witness for C6 at a concrete all-zero (hence `Null`-type) header. -/
theorem null_section_behaviour_witness :
    SectionHeader.get_name (.Sh32 ⟨0, 0, 0, 0, 0, 0, 0, 0, 0, 0⟩)
      ⟨[], ⟨Class.ThirtyTwo, 0, 40, 1, 0⟩⟩ =
      .ok (.error "Attempt to get name of null section") :=
  (null_section_behaviour (.Sh32 ⟨0, 0, 0, 0, 0, 0, 0, 0, 0, 0⟩)
    ⟨[], ⟨Class.ThirtyTwo, 0, 40, 1, 0⟩⟩ rfl).1

/-- C7: for a non-`Null` section header whose window `[offset, offset+size)`
lies inside the buffer, `raw_data` returns exactly that window — in
particular its length is exactly the header's `size` field — and for any
window reaching beyond the buffer it aborts instead of truncating. -/
theorem raw_data_exact_slice (sh : SectionHeader) (elf : ElfFile) (t : ShType)
    (ht : sh.get_type = .ok t) (hnn : t ≠ ShType.Null) :
    (sh.offset + sh.size ≤ elf.input.length →
      sh.raw_data elf = .ok (bytesAt elf.input sh.offset sh.size) ∧
      (bytesAt elf.input sh.offset sh.size).length = sh.size) ∧
    (elf.input.length < sh.offset + sh.size →
      sh.raw_data elf = .error .sliceOutOfBounds) := by
  constructor
  · intro hin
    refine ⟨?_, bytesAt_length _ _ _ hin⟩
    simp only [SectionHeader.raw_data, ht, ok_bind, if_neg hnn]
    exact sliceBytes_eq_bytesAt elf.input sh.offset sh.size hin
  · intro hout
    simp only [SectionHeader.raw_data, ht, ok_bind, if_neg hnn]
    rw [sliceBytes, if_neg (by omega)]

/-- Witness for C7: a concrete 4-byte window is returned exactly. -/
theorem raw_data_exact_slice_witness :
    SectionHeader.raw_data (.Sh32 ⟨0, 1, 0, 0, 1, 4, 0, 0, 0, 0⟩)
      ⟨[9, 1, 2, 3, 4, 9], ⟨Class.ThirtyTwo, 0, 40, 1, 0⟩⟩ = .ok [1, 2, 3, 4] := by
  have h := (raw_data_exact_slice (.Sh32 ⟨0, 1, 0, 0, 1, 4, 0, 0, 0, 0⟩)
    ⟨[9, 1, 2, 3, 4, 9], ⟨Class.ThirtyTwo, 0, 40, 1, 0⟩⟩ ShType.ProgBits rfl
    (by decide)).1 (by decide)
  exact h.1

/-- View a byte list as the string of its (ASCII) character codes. -/
def asciiStr (bs : List Nat) : String := String.mk (bs.map Char.ofNat)

/-- C8: on the StrTab payload `b"\x00foo\x00bar\x00"` the String-Table
Scanner obtained from `strings()` yields exactly "foo" then "bar"
(as byte lists, with their ASCII readings) and is then exhausted: driving it
with surplus fuel collects nothing further, the state after the two yields
is empty, and `next` on that state returns nothing. -/
theorem strtab_scanner_foo_bar :
    SectionData.strings (.StrArray [0, 102, 111, 111, 0, 98, 97, 114, 0]) =
      .ok (read_strs_to_null [0, 102, 111, 111, 0, 98, 97, 114, 0]) ∧
    collectStrings 10 (read_strs_to_null [0, 102, 111, 111, 0, 98, 97, 114, 0]) =
      [[102, 111, 111], [98, 97, 114]] ∧
    (read_strs_to_null [0, 102, 111, 111, 0, 98, 97, 114, 0]).next =
      some ([102, 111, 111], ⟨[98, 97, 114, 0]⟩) ∧
    SectionStrings.next ⟨[98, 97, 114, 0]⟩ = some ([98, 97, 114], ⟨[]⟩) ∧
    SectionStrings.next ⟨[]⟩ = none ∧
    asciiStr [102, 111, 111] = "foo" ∧ asciiStr [98, 97, 114] = "bar" :=
  ⟨rfl, rfl, rfl, rfl, rfl, rfl, rfl⟩

/-- C9: decoding a synthetic section-table entry of either width (40-byte
32-bit layout, 64-byte 64-bit layout, fields in on-disk order) and reading
every field back — including through the uniform accessors — returns
exactly the encoded values. -/
theorem section_header_roundtrip (h : SectionHeader_) :
    (h.name < 2 ^ 32 → h.type_ < 2 ^ 32 → h.flags < 2 ^ 32 → h.address < 2 ^ 32 →
     h.offset < 2 ^ 32 → h.size < 2 ^ 32 → h.link < 2 ^ 32 → h.info < 2 ^ 32 →
     h.align < 2 ^ 32 → h.entry_size < 2 ^ 32 →
      decodeSh32 (encodeSh32 h) = h ∧
      ((SectionHeader.Sh32 (decodeSh32 (encodeSh32 h))).name = h.name ∧
       (SectionHeader.Sh32 (decodeSh32 (encodeSh32 h))).flags = h.flags ∧
       (SectionHeader.Sh32 (decodeSh32 (encodeSh32 h))).offset = h.offset ∧
       (SectionHeader.Sh32 (decodeSh32 (encodeSh32 h))).size = h.size ∧
       (SectionHeader.Sh32 (decodeSh32 (encodeSh32 h))).type_ = h.type_)) ∧
    (h.name < 2 ^ 32 → h.type_ < 2 ^ 32 → h.flags < 2 ^ 64 → h.address < 2 ^ 64 →
     h.offset < 2 ^ 64 → h.size < 2 ^ 64 → h.link < 2 ^ 32 → h.info < 2 ^ 32 →
     h.align < 2 ^ 64 → h.entry_size < 2 ^ 64 →
      decodeSh64 (encodeSh64 h) = h ∧
      ((SectionHeader.Sh64 (decodeSh64 (encodeSh64 h))).name = h.name ∧
       (SectionHeader.Sh64 (decodeSh64 (encodeSh64 h))).flags = h.flags ∧
       (SectionHeader.Sh64 (decodeSh64 (encodeSh64 h))).offset = h.offset ∧
       (SectionHeader.Sh64 (decodeSh64 (encodeSh64 h))).size = h.size ∧
       (SectionHeader.Sh64 (decodeSh64 (encodeSh64 h))).type_ = h.type_)) := by
  constructor
  · intro h0 h1 h2 h3 h4 h5 h6 h7 h8 h9
    have hdec : decodeSh32 (encodeSh32 h) = h := by
      cases h with
      | mk name type_ flags address offset size link info align entry_size =>
      simp only [decodeSh32, encodeSh32] at *
      simp +decide [bytesAt, List.drop_append_eq_append_drop,
        List.take_append_eq_append_take, encodeLE_length, List.drop_eq_nil_of_le,
        List.take_of_length_le, readLE_encodeLE4, readLE_encodeLE8, *]
      exact ⟨readLE_encodeLE4 _ h0, readLE_encodeLE4 _ h1, readLE_encodeLE4 _ h2,
        readLE_encodeLE4 _ h3, readLE_encodeLE4 _ h4, readLE_encodeLE4 _ h5,
        readLE_encodeLE4 _ h6, readLE_encodeLE4 _ h7, readLE_encodeLE4 _ h8,
        readLE_encodeLE4 _ h9⟩
    rw [hdec]
    exact ⟨rfl, rfl, rfl, rfl, rfl, rfl⟩
  · intro h0 h1 h2 h3 h4 h5 h6 h7 h8 h9
    have hdec : decodeSh64 (encodeSh64 h) = h := by
      cases h with
      | mk name type_ flags address offset size link info align entry_size =>
      simp only [decodeSh64, encodeSh64] at *
      simp +decide [bytesAt, List.drop_append_eq_append_drop,
        List.take_append_eq_append_take, encodeLE_length, List.drop_eq_nil_of_le,
        List.take_of_length_le, readLE_encodeLE4, readLE_encodeLE8, *]
      exact ⟨readLE_encodeLE4 _ h0, readLE_encodeLE4 _ h1, readLE_encodeLE8 _ h2,
        readLE_encodeLE8 _ h3, readLE_encodeLE8 _ h4, readLE_encodeLE8 _ h5,
        readLE_encodeLE4 _ h6, readLE_encodeLE4 _ h7, readLE_encodeLE8 _ h8,
        readLE_encodeLE8 _ h9⟩
    rw [hdec]
    exact ⟨rfl, rfl, rfl, rfl, rfl, rfl⟩

/-- Witness for C9 at a concrete 64-bit entry with field values 1..10. -/
theorem section_header_roundtrip_witness :
    decodeSh64 (encodeSh64 ⟨1, 2, 3, 4, 5, 6, 7, 8, 9, 10⟩) =
      ⟨1, 2, 3, 4, 5, 6, 7, 8, 9, 10⟩ :=
  ((section_header_roundtrip ⟨1, 2, 3, 4, 5, 6, 7, 8, 9, 10⟩).2
    (by decide) (by decide) (by decide) (by decide) (by decide) (by decide)
    (by decide) (by decide) (by decide) (by decide)).1

/-- C10 (counterexample): `sanity_check` does not return `Ok(())` for every
section header — on a header whose raw type code is 12 (unclassifiable) it
aborts inside `get_type` instead of returning. -/
theorem sanity_check_not_total :
    sanity_check (.Sh32 ⟨0, 12, 0, 0, 0, 0, 0, 0, 0, 0⟩)
      ⟨[], ⟨Class.ThirtyTwo, 0, 40, 0, 0⟩⟩ = .error .invalidTypeCode := rfl

/-- C10 (amended): `sanity_check` returns `Ok(())` for every section header
whose type code classifies successfully — beyond the `Null` early return it
performs no validation, so it rejects no classifiable header. -/
theorem sanity_check_ok_of_classifiable (sh : SectionHeader) (elf : ElfFile)
    (t : ShType) (ht : sh.get_type = .ok t) :
    sanity_check sh elf = .ok () := by
  rw [sanity_check, ht, ok_bind]
  split <;> rfl

/-- Witness for C10's amended theorem at a concrete ProgBits header. -/
theorem sanity_check_ok_of_classifiable_witness :
    sanity_check (.Sh32 ⟨0, 1, 0, 0, 0, 0, 0, 0, 0, 0⟩)
      ⟨[], ⟨Class.ThirtyTwo, 0, 40, 0, 0⟩⟩ = .ok () :=
  sanity_check_ok_of_classifiable (.Sh32 ⟨0, 1, 0, 0, 0, 0, 0, 0, 0, 0⟩)
    ⟨[], ⟨Class.ThirtyTwo, 0, 40, 0, 0⟩⟩ ShType.ProgBits rfl

end XmasElf
